import Mathlib

/-!
Verification of the crew-pay workflow (pay validation, claims processing,
compliance, notification routing) against its specification.

The Python source is shallowly embedded:
* `Decimal` amounts become `ℚ`.  The checks only add, subtract, multiply and
  compare decimals, and those operations are exact for `Decimal`, so `ℚ`
  reproduces them exactly.
* `date` values become `Int` proleptic day ordinals; `(end - start).days`
  becomes `Int` subtraction.
* `datetime.now()` becomes an explicit clock argument `now : Nat`
  (each `ValidationResult.timestamp` records the clock at its creation).
* The LLM round trip becomes an explicit argument `llm : Except String String`:
  `.ok content` is a successful response, `.error e` is a raised exception
  with message `e`.  Each agent makes at most one such call and never retries.
* Interpolated f-string messages are embedded as structured values carrying
  the interpolated data (formatting of numbers is presentation only); the
  `details` dictionaries duplicate those payloads and are folded into them.
-/

namespace CrewPay

/-- Character-list matcher: does `pat` occur at the head of the first list?
(Helper for embedding Python's `in` substring test.) -/
def matchAt : List Char → List Char → Bool
  | _, [] => true
  | [], _ :: _ => false
  | c :: cs, p :: ps => c == p && matchAt cs ps

/-- Does `pat` occur anywhere in the character list? -/
def containsChars : List Char → List Char → Bool
  | [], pat => pat.isEmpty
  | c :: cs, pat => matchAt (c :: cs) pat || containsChars cs pat

/-- Python `pat in s` on strings. -/
def strContains (s pat : String) : Bool := containsChars s.data pat.data

/-- Python `s.lower()` (ASCII case folding, as used by the response parsers). -/
def strLower (s : String) : String := ⟨s.data.map Char.toLower⟩

/-- Python `s.strip()`: drop leading and trailing whitespace. -/
def trimChars (cs : List Char) : List Char :=
  ((cs.dropWhile Char.isWhitespace).reverse.dropWhile Char.isWhitespace).reverse

/-- `len(s.strip())`. -/
def strStripLen (s : String) : Nat := (trimChars s.data).length

/-- Python `s[:n]` (character slice). -/
def strTake (s : String) (n : Nat) : String := ⟨s.data.take n⟩

/-- Python `abs()` on a `Decimal` value. -/
def qAbs (q : ℚ) : ℚ := if q < 0 then -q else q

/-- Python `abs()` on an `int` value. -/
def iAbs (i : Int) : Int := if i < 0 then -i else i

/-! ## Domain model (`crew_pay/models/schemas.py`) -/

inductive ValidationStatus where
  | passed | failed | warning | requires_review
deriving DecidableEq, Repr

inductive PayPeriodType where
  | weekly | bi_weekly | semi_monthly | monthly
deriving DecidableEq, Repr

def PayPeriodType.value : PayPeriodType → String
  | .weekly => "weekly"
  | .bi_weekly => "bi_weekly"
  | .semi_monthly => "semi_monthly"
  | .monthly => "monthly"

inductive PayStatus where
  | pending | validated | rejected | processed | paid
deriving DecidableEq, Repr

inductive ClaimType where
  | overtime | reimbursement | bonus | adjustment | dispute
deriving DecidableEq, Repr

def ClaimType.value : ClaimType → String
  | .overtime => "overtime"
  | .reimbursement => "reimbursement"
  | .bonus => "bonus"
  | .adjustment => "adjustment"
  | .dispute => "dispute"

inductive ClaimStatus where
  | submitted | under_review | approved | rejected | paid
deriving DecidableEq, Repr

structure CrewMember where
  id : String
  name : String
  employee_id : String
  department : String
  position : String
  hourly_rate : ℚ          -- pydantic: gt=0
  email : Option String := none
  phone : Option String := none
deriving DecidableEq, Repr

/-- Pay record.  `created_at`, `updated_at` and the free-form `metadata` map are
timestamps/audit fields never read by any check and are omitted. -/
structure PayRecord where
  id : String
  crew_member : CrewMember
  pay_period_start : Int
  pay_period_end : Int
  pay_period_type : PayPeriodType
  regular_hours : ℚ := 0   -- pydantic: ge=0
  overtime_hours : ℚ := 0  -- pydantic: ge=0
  gross_pay : ℚ            -- pydantic: ge=0
  deductions : ℚ := 0      -- pydantic: ge=0
  net_pay : ℚ              -- pydantic: ge=0
  status : PayStatus := .pending
deriving DecidableEq, Repr

/-- `PayRecord.validate_pay_period` (schemas.py lines 106-112): the pydantic
field validator run on `pay_period_end` at construction.  It raises exactly
when `v < pay_period_start`. -/
def validate_pay_period_end (pay_period_start v : Int) : Except String Int :=
  if v < pay_period_start then .error "Pay period end must be after start date"
  else .ok v

/-- Claim.  `submitted_date`, `reviewer_notes`, `approved_amount`,
`reviewed_at` and `metadata` are unread by the processing agent and omitted. -/
structure Claim where
  id : String
  crew_member : CrewMember
  claim_type : ClaimType
  amount : ℚ               -- pydantic: gt=0
  description : String
  supporting_documents : List String := []
  status : ClaimStatus := .submitted
deriving DecidableEq, Repr

/-- Structured stand-ins for the interpolated f-string messages (and the
`details` dictionaries, whose entries duplicate the same payloads) produced
by the pay-validation checks. -/
inductive PayMsg where
  | hoursExceeded (total maxTotal regular overtime : ℚ)
  | hoursApproaching (total maxTotal : ℚ)
  | hoursOk (total : ℚ)
  | payCalcMismatch (expected actual difference : ℚ)
  | netMismatch (expectedNet actualNet : ℚ)
  | payCalcOk (gross net : ℚ)
  | periodEndNotAfterStart (startDay endDay : Int)
  | periodLengthMismatch (actualDays expectedDays : Int) (t : PayPeriodType)
  | periodOk (days : Int)
  | missingFields (fields : List String)
  | completenessOk
  | llmValidation (content : String)
  | llmSkipped (err : String)
deriving DecidableEq, Repr

structure ValidationResult where
  check_name : String
  status : ValidationStatus
  message : PayMsg
  timestamp : Nat          -- datetime.now() at creation (default_factory)
deriving DecidableEq, Repr

/-- A `ValidationResult` without its creation timestamp (all fields the
checks compute from the record alone). -/
def stripTimestamp (v : ValidationResult) : String × ValidationStatus × PayMsg :=
  (v.check_name, v.status, v.message)

/-- `_create_summary`'s content: counts per status plus the failed check
names (string formatting is presentation only). -/
structure Summary where
  passed : Nat
  warnings : Nat
  failed : Nat
  failed_checks : List String
deriving DecidableEq, Repr

structure ValidationReport where
  pay_record_id : String
  overall_status : ValidationStatus
  validation_results : List ValidationResult
  summary : Summary
deriving DecidableEq, Repr

/-- Settings fields read by the embedded agents (`config/settings.py`). -/
structure Settings where
  max_regular_hours_per_week : ℚ := 40
  max_overtime_hours_per_week : ℚ := 20
  enable_compliance_checks : Bool := true
  auto_approve_claim_threshold : Option ℚ := none
deriving DecidableEq, Repr

/-! ## Pay validation agent (`agents/pay_validation_agent.py`) -/

namespace PayValidationAgent

/-- `_validate_hours`. -/
def validate_hours (s : Settings) (r : PayRecord) (now : Nat) : ValidationResult :=
  let total := r.regular_hours + r.overtime_hours
  let maxTotal := (s.max_regular_hours_per_week + s.max_overtime_hours_per_week) * 2
  if total > maxTotal then
    ⟨"hours_limit_check", .failed, .hoursExceeded total maxTotal r.regular_hours r.overtime_hours, now⟩
  else if total > maxTotal * (9 / 10) then
    ⟨"hours_limit_check", .warning, .hoursApproaching total maxTotal, now⟩
  else
    ⟨"hours_limit_check", .passed, .hoursOk total, now⟩

/-- `_validate_pay_calculation`. -/
def validate_pay_calculation (r : PayRecord) (now : Nat) : ValidationResult :=
  let regular_pay := r.regular_hours * r.crew_member.hourly_rate
  let overtime_rate := r.crew_member.hourly_rate * (3 / 2)
  let overtime_pay := r.overtime_hours * overtime_rate
  let expected_gross := regular_pay + overtime_pay
  let difference := qAbs (r.gross_pay - expected_gross)
  let tolerance : ℚ := 1 / 100
  if difference > tolerance then
    ⟨"pay_calculation_check", .failed, .payCalcMismatch expected_gross r.gross_pay difference, now⟩
  else
    let expected_net := r.gross_pay - r.deductions
    if qAbs (r.net_pay - expected_net) > tolerance then
      ⟨"pay_calculation_check", .failed, .netMismatch expected_net r.net_pay, now⟩
    else
      ⟨"pay_calculation_check", .passed, .payCalcOk r.gross_pay r.net_pay, now⟩

/-- `_validate_pay_period`.  The dictionary `expected_days.get(..., 14)` covers
every `PayPeriodType` value, so the default `14` is unreachable. -/
def validate_pay_period (r : PayRecord) (now : Nat) : ValidationResult :=
  if r.pay_period_end ≤ r.pay_period_start then
    ⟨"pay_period_check", .failed, .periodEndNotAfterStart r.pay_period_start r.pay_period_end, now⟩
  else
    let days_diff := r.pay_period_end - r.pay_period_start
    let expected : Int :=
      match r.pay_period_type with
      | .weekly => 7
      | .bi_weekly => 14
      | .semi_monthly => 15
      | .monthly => 30
    if iAbs (days_diff - expected) > 2 then
      ⟨"pay_period_check", .warning, .periodLengthMismatch days_diff expected r.pay_period_type, now⟩
    else
      ⟨"pay_period_check", .passed, .periodOk days_diff, now⟩

/-- `_validate_data_completeness`.  `not x` on a Python string is the empty
test; hours/pay bounds repeat the source conditions. -/
def validate_data_completeness (r : PayRecord) (now : Nat) : ValidationResult :=
  let missing :=
    (if r.crew_member.name = "" then ["crew_member.name"] else []) ++
    (if r.crew_member.employee_id = "" then ["crew_member.employee_id"] else []) ++
    (if r.regular_hours < 0 then ["regular_hours (invalid)"] else []) ++
    (if r.gross_pay ≤ 0 then ["gross_pay (invalid)"] else [])
  if missing ≠ [] then
    ⟨"data_completeness_check", .failed, .missingFields missing, now⟩
  else
    ⟨"data_completeness_check", .passed, .completenessOk, now⟩

/-- `_validate_with_llm`: keyword parse of a successful response; the
`except Exception` handler returns a `warning` result carrying the error. -/
def validate_with_llm (llm : Except String String) (now : Nat) : ValidationResult :=
  match llm with
  | .ok content =>
      let c := strLower content
      let status :=
        if strContains c "failed" || strContains c "reject" then ValidationStatus.failed
        else if strContains c "warning" || strContains c "concern" then ValidationStatus.warning
        else ValidationStatus.passed
      ⟨"llm_semantic_check", status, .llmValidation content, now⟩
  | .error e =>
      ⟨"llm_semantic_check", .warning, .llmSkipped e, now⟩

/-- `_determine_overall_status`. -/
def determine_overall_status (results : List ValidationResult) : ValidationStatus :=
  if results.any (fun r => r.status == .failed) then .failed
  else if results.any (fun r => r.status == .requires_review) then .requires_review
  else if results.any (fun r => r.status == .warning) then .warning
  else .passed

/-- `_create_summary` (structured content; `sum(1 for ...)` = filtered length). -/
def create_summary (results : List ValidationResult) : Summary :=
  let passedCount := (results.filter (fun r => r.status == .passed)).length
  let warningCount := (results.filter (fun r => r.status == .warning)).length
  let failedCount := (results.filter (fun r => r.status == .failed)).length
  { passed := passedCount
    warnings := warningCount
    failed := failedCount
    failed_checks :=
      if failedCount > 0 then
        (results.filter (fun r => r.status == .failed)).map (·.check_name)
      else [] }

structure PayAgentOutput where
  validation_report : ValidationReport
  next_agent : Option String
  should_continue : Bool
deriving DecidableEq, Repr

/-- The four rule-based checks, in the order `process` appends them. -/
def run_rule_checks (s : Settings) (r : PayRecord) (now : Nat) : List ValidationResult :=
  [validate_hours s r now,
   validate_pay_calculation r now,
   validate_pay_period r now,
   validate_data_completeness r now]

/-- `PayValidationAgent.process` (a `pay_record` is required; the
`ValidationError` raised when it is missing is outside this embedding). -/
def process (s : Settings) (r : PayRecord) (llm : Except String String) (now : Nat) :
    PayAgentOutput :=
  let validation_results := run_rule_checks s r now ++ [validate_with_llm llm now]
  let overall_status := determine_overall_status validation_results
  { validation_report :=
      { pay_record_id := r.id
        overall_status := overall_status
        validation_results := validation_results
        summary := create_summary validation_results }
    next_agent := if overall_status ≠ .failed then some "ComplianceAgent" else none
    should_continue := overall_status ≠ .failed }

end PayValidationAgent

/-! ## Spec-side ordering for C2: worst status under
failed > requires_review > warning > passed. -/

def statusSeverity : ValidationStatus → Nat
  | .failed => 3
  | .requires_review => 2
  | .warning => 1
  | .passed => 0

/-- The worse of two statuses under the spec's ordering. -/
def worseStatus (a b : ValidationStatus) : ValidationStatus :=
  if statusSeverity b > statusSeverity a then b else a

/-- Spec-side definition (from the spec's words, for comparison with the
source's `determine_overall_status`): the worst status in a list. -/
def worstStatus (l : List ValidationStatus) : ValidationStatus :=
  l.foldr worseStatus .passed

/-! ## Claims processing agent (`agents/claims_processing_agent.py`) -/

/-- Structured stand-ins for `ClaimDecision.rationale` strings (the LLM
excerpts are the first 300 characters of the response, as in the source). -/
inductive Rationale where
  | precheckReject (message : String)
  | autoApproved (amount : ℚ)
  | llmApproved (excerpt : String)
  | llmRejected (excerpt : String)
  | llmReview (excerpt : String)
  | fallbackError (err : String)
deriving DecidableEq, Repr

/-- `ClaimDecision` (`reviewer` is always the agent name; `reviewed_at`
omitted as a pure timestamp). -/
structure ClaimDecision where
  claim_id : String
  decision : ClaimStatus
  approved_amount : ℚ
  rationale : Rationale
  next_steps : List String
deriving DecidableEq, Repr

namespace ClaimsProcessingAgent

/-- `_validate_overtime_claim`: keyword scan over the document names, then
the `or len(claim.supporting_documents) > 0` short-circuit from the source. -/
def validate_overtime_claim (cl : Claim) : Bool :=
  let required_docs := ["timesheet", "time", "hours", "schedule"]
  let has_required_doc :=
    cl.supporting_documents.any fun doc =>
      required_docs.any fun keyword => strContains (strLower doc) keyword
  has_required_doc || cl.supporting_documents.length > 0

/-- Whether some supporting document matches the timesheet-keyword list
(the first disjunct of `_validate_overtime_claim` on its own). -/
def has_timesheet_like_doc (cl : Claim) : Bool :=
  cl.supporting_documents.any fun doc =>
    ["timesheet", "time", "hours", "schedule"].any fun keyword =>
      strContains (strLower doc) keyword

/-- `_validate_claim`: returns `(is_valid, message)`.  `not claim.description
or len(claim.description.strip()) < 10` collapses to the length test, since
an empty string also has stripped length `< 10`. -/
def validate_claim (cl : Claim) : Bool × String :=
  if strStripLen cl.description < 10 then
    (false, "Claim description is too short or missing")
  else if cl.amount ≤ 0 then
    (false, "Claim amount must be greater than zero")
  else if cl.claim_type.value = "overtime" ∧ ¬validate_overtime_claim cl then
    (false, "Overtime claim validation failed - missing timesheet documentation")
  else if cl.claim_type.value = "reimbursement" ∧ cl.supporting_documents = [] then
    (false, "Reimbursement claims require supporting documents")
  else
    (true, "Claim validation passed")

/-- `_auto_approve_claim`. -/
def auto_approve_claim (cl : Claim) : ClaimDecision :=
  { claim_id := cl.id
    decision := .approved
    approved_amount := cl.amount
    rationale := .autoApproved cl.amount
    next_steps :=
      ["Process payment", "Update payroll system", "Notify crew member of approval"] }

/-- `_evaluate_claim_with_llm`: keyword parse of a successful response; the
`except Exception` handler returns an `under_review` decision carrying the
error message. -/
def evaluate_claim_with_llm (cl : Claim) (llm : Except String String) : ClaimDecision :=
  match llm with
  | .ok content =>
      let c := strLower content
      if strContains c "approved" ∧ ¬strContains c "rejected" then
        { claim_id := cl.id
          decision := .approved
          approved_amount := cl.amount
          rationale := .llmApproved (strTake content 300)
          next_steps :=
            ["Process payment", "Update payroll system",
             "Notify crew member of approval"] }
      else if strContains c "rejected" ∨ strContains c "deny" then
        { claim_id := cl.id
          decision := .rejected
          approved_amount := 0
          rationale := .llmRejected (strTake content 300)
          next_steps :=
            ["Notify crew member of rejection", "Provide feedback for resubmission"] }
      else
        { claim_id := cl.id
          decision := .under_review
          approved_amount := 0
          rationale := .llmReview (strTake content 300)
          next_steps :=
            ["Request additional documentation", "Escalate to manager for review",
             "Schedule review meeting"] }
  | .error e =>
      { claim_id := cl.id
        decision := .under_review
        approved_amount := 0
        rationale := .fallbackError e
        next_steps := ["Manual review required", "Escalate to human reviewer"] }

/-- `_determine_next_agent`. -/
def determine_next_agent (s : Settings) (decision : ClaimDecision) : String :=
  if decision.decision = .approved then
    if s.enable_compliance_checks then "ComplianceAgent" else "NotificationAgent"
  else if decision.decision = .rejected then "NotificationAgent"
  else "NotificationAgent"

structure ClaimsAgentOutput where
  claim_decision : ClaimDecision
  next_agent : Option String
  should_continue : Bool
deriving DecidableEq, Repr

/-- `ClaimsProcessingAgent.process` (a `claim` is required; the
`ValidationError` raised when it is missing is outside this embedding).
`if threshold and amount <= Decimal(str(threshold))`: a `None` or `0.0`
threshold is falsy, so the auto-approval branch needs a present, nonzero
threshold. -/
def process (s : Settings) (cl : Claim) (llm : Except String String) : ClaimsAgentOutput :=
  let v := validate_claim cl
  if v.1 = false then
    { claim_decision :=
        { claim_id := cl.id
          decision := .rejected
          approved_amount := 0
          rationale := .precheckReject v.2
          next_steps :=
            ["Notify crew member of rejection", "Request additional information"] }
      next_agent := some "NotificationAgent"
      should_continue := true }
  else
    let auto :=
      match s.auto_approve_claim_threshold with
      | some t => decide (t ≠ 0) && decide (cl.amount ≤ t)
      | none => false
    let decision :=
      if auto then auto_approve_claim cl else evaluate_claim_with_llm cl llm
    { claim_decision := decision
      next_agent := some (determine_next_agent s decision)
      should_continue := true }

end ClaimsProcessingAgent

/-! ## Compliance agent (`agents/compliance_agent.py`) -/

/-- One compliance check entry: `{"check_name": ..., "passed": ...,
"warning": ..., ...}`.  The `message`/`details` entries are presentation-only
strings never read by the control flow and are omitted. -/
structure ComplianceCheck where
  check_name : String
  passed : Bool
  warning : Bool
deriving DecidableEq, Repr

namespace ComplianceAgent

/-- `_check_pay_record_compliance`.  Caveat: when `gross_pay = 0` the source
reaches `deductions / gross_pay` and `Decimal` raises (the run aborts in the
top-level wrapper); `ℚ` division by zero yields `0` instead, so theorems
about this function assume `gross_pay ≠ 0`. -/
def check_pay_record_compliance (r : PayRecord) : List ComplianceCheck :=
  (if r.crew_member.hourly_rate < 15 then
    [⟨"minimum_wage_check", false, false⟩]
   else
    [⟨"minimum_wage_check", true, false⟩]) ++
  (if r.overtime_hours > 0 then
    [⟨"overtime_rate_check", true, false⟩]
   else []) ++
  (if r.deductions ≤ 0 ∧ r.gross_pay > 0 then
    [⟨"tax_withholding_check", false, true⟩]
   else
    let deduction_percentage := r.deductions / r.gross_pay * 100
    if deduction_percentage < 5 ∨ deduction_percentage > 50 then
      [⟨"tax_withholding_check", true, true⟩]
    else
      [⟨"tax_withholding_check", true, false⟩])

/-- `_check_claim_compliance`. -/
def check_claim_compliance (cl : Claim) : List ComplianceCheck :=
  (if (cl.claim_type.value = "reimbursement" ∨ cl.claim_type.value = "bonus") ∧
      cl.supporting_documents = [] then
    [⟨"documentation_requirement", false, false⟩]
   else
    [⟨"documentation_requirement", true, false⟩]) ++
  (if cl.amount > 10000 then
    [⟨"amount_threshold_check", true, true⟩]
   else
    [⟨"amount_threshold_check", true, false⟩])

/-- `_check_general_compliance`: LLM keyword parse, with the exception
handler returning a passed-with-warning entry. -/
def check_general_compliance (llm : Except String String) : ComplianceCheck :=
  match llm with
  | .ok content =>
      let c := strLower content
      let compliant :=
        strContains c "compliant" && !strContains c "non-compliant" &&
          !strContains c "not compliant"
      ⟨"llm_general_compliance", compliant, !compliant⟩
  | .error _ =>
      ⟨"llm_general_compliance", true, true⟩

structure ComplianceOutput where
  compliance_status : String
  checks : List ComplianceCheck
  next_agent : Option String
  should_continue : Bool
deriving DecidableEq, Repr

/-- The `compliance_checks` list `process` accumulates: pay-record checks
when a pay record is present, claim checks when a claim is present, then
the general LLM check. -/
def gather_checks (pay_record : Option PayRecord) (claim : Option Claim)
    (llm : Except String String) : List ComplianceCheck :=
  (match pay_record with
   | some r => check_pay_record_compliance r
   | none => []) ++
  (match claim with
   | some cl => check_claim_compliance cl
   | none => []) ++
  [check_general_compliance llm]

/-- `ComplianceAgent.process`: gather the checks for whichever inputs are
present, then classify via `all_passed` / `has_warnings`. -/
def process (pay_record : Option PayRecord) (claim : Option Claim)
    (llm : Except String String) : ComplianceOutput :=
  let checks := gather_checks pay_record claim llm
  let all_passed := checks.all (·.passed)
  let has_warnings := checks.any (·.warning)
  if all_passed then
    { compliance_status := "compliant"
      checks := checks
      next_agent := some "NotificationAgent"
      should_continue := true }
  else if has_warnings then
    { compliance_status := "compliant_with_warnings"
      checks := checks
      next_agent := some "NotificationAgent"
      should_continue := true }
  else
    { compliance_status := "non_compliant"
      checks := checks
      next_agent := none
      should_continue := false }

end ComplianceAgent

/-! ## Workflow orchestrator (`orchestrator/workflow.py`) -/

/-- `WorkflowConfig` fields read by the routing functions. -/
structure WorkflowConfig where
  compliance_checks_required : Bool := true
deriving DecidableEq, Repr

/-- The slice of `WorkflowState` read or written by the nodes and routers
(messages and pure metadata/timestamps omitted). -/
structure WorkflowState where
  workflow_status : String         -- "in_progress" | "completed" | "failed"
  next_agent : Option String
  error_message : Option String
  validation_report : Option ValidationReport
  current_agent : String
  iteration_count : Nat
deriving DecidableEq, Repr

namespace CrewPayWorkflow

/-- The initial state built by `validate_pay_record`. -/
def initial_pay_state : WorkflowState :=
  { workflow_status := "in_progress"
    next_agent := some "PayValidationAgent"
    error_message := none
    validation_report := none
    current_agent := ""
    iteration_count := 0 }

/-- `_run_pay_validation`. -/
def run_pay_validation (s : Settings) (r : PayRecord) (llm : Except String String)
    (now : Nat) (st : WorkflowState) : WorkflowState :=
  let output := PayValidationAgent.process s r llm now
  { st with
    current_agent := "pay_validation"
    next_agent := output.next_agent
    iteration_count := st.iteration_count + 1
    validation_report := some output.validation_report
    workflow_status := if output.should_continue then st.workflow_status else "failed"
    error_message := if output.should_continue then st.error_message
                     else some "Pay validation failed" }

/-- `_run_compliance`. -/
def run_compliance (pay_record : Option PayRecord) (claim : Option Claim)
    (llm : Except String String) (st : WorkflowState) : WorkflowState :=
  let output := ComplianceAgent.process pay_record claim llm
  { st with
    current_agent := "compliance"
    next_agent := output.next_agent
    iteration_count := st.iteration_count + 1
    workflow_status := if output.should_continue then st.workflow_status else "failed"
    error_message := if output.should_continue then st.error_message
                     else some "Compliance check failed" }

/-- `_run_notification` (the notification agent itself only emits messages;
the node always completes an unfailed run). -/
def run_notification (st : WorkflowState) : WorkflowState :=
  { st with
    current_agent := "notification"
    next_agent := none
    iteration_count := st.iteration_count + 1
    workflow_status :=
      if st.workflow_status ≠ "failed" then "completed" else st.workflow_status }

/-- `_route_from_pay_validation`. -/
def route_from_pay_validation (cfg : WorkflowConfig) (st : WorkflowState) : String :=
  if st.workflow_status = "failed" then "notification"
  else if st.next_agent = some "ComplianceAgent" ∧ cfg.compliance_checks_required then
    "compliance"
  else "notification"

/-- `_route_from_compliance` (both branches of the source return
`"notification"`). -/
def route_from_compliance (st : WorkflowState) : String :=
  if st.workflow_status = "failed" then "notification" else "notification"

/-- The pay-record workflow of `validate_pay_record`: enter at
`pay_validation`, follow the conditional edges, end after `notification`.
Returns the visited node names (in order) and the final state. -/
def run_pay_workflow (cfg : WorkflowConfig) (s : Settings) (r : PayRecord)
    (llmValidation llmCompliance : Except String String) (now : Nat) :
    List String × WorkflowState :=
  let st1 := run_pay_validation s r llmValidation now initial_pay_state
  if route_from_pay_validation cfg st1 = "compliance" then
    let st2 := run_compliance (some r) none llmCompliance st1
    let _ := route_from_compliance st2
    let st3 := run_notification st2
    (["pay_validation", "compliance", "notification"], st3)
  else
    let st3 := run_notification st1
    (["pay_validation", "notification"], st3)

end CrewPayWorkflow

/-- The C1 claim's routing rule, stated from the spec's words: leave
`pay_validation` for `compliance` only when compliance checks are enabled and
the produced verdict requests review (`requires_review`); otherwise go to
`notification`. -/
def claimedRouteFromPayValidation (cfg : WorkflowConfig) (st : WorkflowState) : String :=
  if st.workflow_status = "failed" then "notification"
  else if cfg.compliance_checks_required ∧
      (st.validation_report.map (·.overall_status) = some .requires_review) then
    "compliance"
  else "notification"

/-! ## Concrete fixtures used by witnesses and counterexamples -/

/-- The crew member of the repository's own examples (hourly rate 75.50). -/
def crewA : CrewMember :=
  { id := "crew-001", name := "John Doe", employee_id := "EMP-12345"
    department := "Engineering", position := "Senior Engineer"
    hourly_rate := 75.50 }

/-- A bi-weekly record with gross pay exactly 80×75.50 + 5×75.50×1.5 = 6606.25
and net pay consistent with its 1283.00 deductions. -/
def recPass : PayRecord :=
  { id := "pay-001", crew_member := crewA
    pay_period_start := 0, pay_period_end := 14, pay_period_type := .bi_weekly
    regular_hours := 80, overtime_hours := 5
    gross_pay := 6606.25, deductions := 1283.00, net_pay := 5323.25 }

/-- The same record with the example gross pay 6415.00 (off by 191.25). -/
def recBadGross : PayRecord :=
  { recPass with gross_pay := 6415.00, net_pay := 5132.00 }

/-- A record whose completeness check fails (`gross_pay ≤ 0`; pydantic allows
`gross_pay = 0` since the bound is `ge=0`). -/
def recIncomplete : PayRecord :=
  { recPass with gross_pay := 0, net_pay := 0, deductions := 0 }

/-- A pay record whose minimum-wage compliance check fails hard (rate 10)
while its tax-withholding check carries a warning (no deductions). -/
def recLowWage : PayRecord :=
  { id := "pay-002", crew_member := { crewA with hourly_rate := 10 }
    pay_period_start := 0, pay_period_end := 14, pay_period_type := .bi_weekly
    regular_hours := 80, overtime_hours := 0
    gross_pay := 800, deductions := 0, net_pay := 800 }

/-- A valid overtime claim with a timesheet document (the repository's own
example claim). -/
def claimTimesheet : Claim :=
  { id := "claim-001", crew_member := crewA, claim_type := .overtime
    amount := 500, description := "Overtime work on weekend deployment"
    supporting_documents := ["timesheet.pdf"] }

/-- An overtime claim whose single supporting document matches none of the
timesheet keywords. -/
def claimReceiptOnly : Claim :=
  { claimTimesheet with id := "claim-002", supporting_documents := ["receipt.pdf"] }

/-- An overtime claim with no supporting documents at all. -/
def claimNoDocs : Claim :=
  { claimTimesheet with id := "claim-003", supporting_documents := [] }

/-- Settings with the auto-approve threshold of the C6 scenario. -/
def settingsAuto1000 : Settings :=
  { auto_approve_claim_threshold := some 1000 }

/-! ## Helper lemmas -/

theorem qAbs_eq_abs (q : ℚ) : qAbs q = |q| := by
  unfold qAbs
  rcases le_or_lt 0 q with h | h
  · rw [if_neg (not_lt.mpr h), abs_of_nonneg h]
  · rw [if_pos h, abs_of_neg h]

theorem iAbs_eq_abs (i : Int) : iAbs i = |i| := by
  unfold iAbs
  rcases le_or_lt 0 i with h | h
  · rw [if_neg (not_lt.mpr h), abs_of_nonneg h]
  · rw [if_pos h, abs_of_neg h]

namespace PayValidationAgent

theorem validate_hours_status (s : Settings) (r : PayRecord) (now : Nat) :
    (validate_hours s r now).status = .failed ∨
    (validate_hours s r now).status = .warning ∨
    (validate_hours s r now).status = .passed := by
  simp only [validate_hours]
  split_ifs <;> simp

theorem validate_pay_calculation_status (r : PayRecord) (now : Nat) :
    (validate_pay_calculation r now).status = .failed ∨
    (validate_pay_calculation r now).status = .passed := by
  simp only [validate_pay_calculation]
  split_ifs <;> simp

theorem validate_pay_period_status (r : PayRecord) (now : Nat) :
    (validate_pay_period r now).status = .failed ∨
    (validate_pay_period r now).status = .warning ∨
    (validate_pay_period r now).status = .passed := by
  simp only [validate_pay_period]
  split_ifs <;> simp

theorem validate_data_completeness_status (r : PayRecord) (now : Nat) :
    (validate_data_completeness r now).status = .failed ∨
    (validate_data_completeness r now).status = .passed := by
  simp only [validate_data_completeness]
  split_ifs <;> simp

theorem validate_with_llm_status (llm : Except String String) (now : Nat) :
    (validate_with_llm llm now).status = .failed ∨
    (validate_with_llm llm now).status = .warning ∨
    (validate_with_llm llm now).status = .passed := by
  cases llm with
  | ok content =>
      simp only [validate_with_llm]
      split_ifs <;> simp
  | error e => simp [validate_with_llm]

set_option maxHeartbeats 1000000 in
theorem determine_overall_status_cons (r : ValidationResult) (t : List ValidationResult) :
    determine_overall_status (r :: t) =
      worseStatus r.status (determine_overall_status t) := by
  cases hr : r.status <;>
    by_cases h1 : t.any (fun x => x.status == ValidationStatus.failed) = true <;>
    by_cases h2 : t.any (fun x => x.status == ValidationStatus.requires_review) = true <;>
    by_cases h3 : t.any (fun x => x.status == ValidationStatus.warning) = true <;>
    simp [determine_overall_status, List.any_cons, worseStatus, statusSeverity, hr, h1, h2, h3]

/-- `determine_overall_status` computes the worst status of the list under
the ordering failed > requires_review > warning > passed. -/
theorem determine_overall_status_eq_worst (l : List ValidationResult) :
    determine_overall_status l = worstStatus (l.map (·.status)) := by
  induction l with
  | nil => rfl
  | cons r t ih =>
    have hcons : worstStatus ((r :: t).map (·.status)) =
        worseStatus r.status (worstStatus (t.map (·.status))) := rfl
    rw [hcons, ← ih, determine_overall_status_cons]

theorem determine_failed_of_mem (l : List ValidationResult) (v : ValidationResult)
    (hv : v ∈ l) (hf : v.status = .failed) :
    determine_overall_status l = .failed := by
  unfold determine_overall_status
  rw [if_pos]
  exact List.any_eq_true.mpr ⟨v, hv, by simp [hf]⟩

theorem process_results (s : Settings) (r : PayRecord) (llm : Except String String)
    (now : Nat) :
    (process s r llm now).validation_report.validation_results =
      run_rule_checks s r now ++ [validate_with_llm llm now] := rfl

theorem process_overall (s : Settings) (r : PayRecord) (llm : Except String String)
    (now : Nat) :
    (process s r llm now).validation_report.overall_status =
      determine_overall_status (run_rule_checks s r now ++ [validate_with_llm llm now]) := rfl

theorem process_should_continue (s : Settings) (r : PayRecord)
    (llm : Except String String) (now : Nat) :
    (process s r llm now).should_continue = true ↔
      (process s r llm now).validation_report.overall_status ≠ .failed := by
  simp [process]

theorem process_next_agent (s : Settings) (r : PayRecord)
    (llm : Except String String) (now : Nat) :
    (process s r llm now).next_agent =
      if (process s r llm now).validation_report.overall_status ≠ .failed then
        some "ComplianceAgent"
      else none := by
  simp only [process]

theorem determine_not_review (l : List ValidationResult)
    (h : ∀ v ∈ l, v.status ≠ .requires_review) :
    determine_overall_status l ≠ .requires_review := by
  unfold determine_overall_status
  split_ifs with hf hr hw
  · simp
  · exfalso
    rcases List.any_eq_true.mp hr with ⟨v, hv, hvr⟩
    exact h v hv (by simpa using hvr)
  · simp
  · simp

theorem rule_results_not_review (s : Settings) (r : PayRecord)
    (llm : Except String String) (now : Nat) :
    ∀ v ∈ run_rule_checks s r now ++ [validate_with_llm llm now],
      v.status ≠ .requires_review := by
  intro v hv
  simp only [run_rule_checks, List.mem_append, List.mem_cons,
    List.not_mem_nil, or_false] at hv
  rcases hv with (h | h | h | h) | h <;> subst h
  · rcases validate_hours_status s r now with h | h | h <;> simp [h]
  · rcases validate_pay_calculation_status r now with h | h <;> simp [h]
  · rcases validate_pay_period_status r now with h | h | h <;> simp [h]
  · rcases validate_data_completeness_status r now with h | h <;> simp [h]
  · rcases validate_with_llm_status llm now with h | h | h <;> simp [h]

theorem validate_hours_stripTimestamp (s : Settings) (r : PayRecord) (t₁ t₂ : Nat) :
    stripTimestamp (validate_hours s r t₁) = stripTimestamp (validate_hours s r t₂) := by
  simp only [validate_hours]
  split_ifs <;> rfl

theorem validate_pay_calculation_stripTimestamp (r : PayRecord) (t₁ t₂ : Nat) :
    stripTimestamp (validate_pay_calculation r t₁) =
      stripTimestamp (validate_pay_calculation r t₂) := by
  simp only [validate_pay_calculation]
  split_ifs <;> rfl

theorem validate_pay_period_stripTimestamp (r : PayRecord) (t₁ t₂ : Nat) :
    stripTimestamp (validate_pay_period r t₁) =
      stripTimestamp (validate_pay_period r t₂) := by
  simp only [validate_pay_period]
  split_ifs <;> rfl

theorem validate_data_completeness_stripTimestamp (r : PayRecord) (t₁ t₂ : Nat) :
    stripTimestamp (validate_data_completeness r t₁) =
      stripTimestamp (validate_data_completeness r t₂) := by
  simp only [validate_data_completeness]
  split_ifs <;> rfl

theorem run_rule_checks_timestamps (s : Settings) (r : PayRecord) (now : Nat) :
    (run_rule_checks s r now).map (·.timestamp) = [now, now, now, now] := by
  have h1 : (validate_hours s r now).timestamp = now := by
    simp only [validate_hours]; split_ifs <;> rfl
  have h2 : (validate_pay_calculation r now).timestamp = now := by
    simp only [validate_pay_calculation]; split_ifs <;> rfl
  have h3 : (validate_pay_period r now).timestamp = now := by
    simp only [validate_pay_period]; split_ifs <;> rfl
  have h4 : (validate_data_completeness r now).timestamp = now := by
    simp only [validate_data_completeness]; split_ifs <;> rfl
  simp [run_rule_checks, h1, h2, h3, h4]

end PayValidationAgent

theorem validate_claim_amount_pos (cl : Claim)
    (h : (ClaimsProcessingAgent.validate_claim cl).1 = true) : 0 < cl.amount := by
  by_contra hneg
  push_neg at hneg
  unfold ClaimsProcessingAgent.validate_claim at h
  split_ifs at h

/-! ## Claim theorems -/

/-- C2: for every PayRecord (and every LLM advisory outcome), the overall
status of the produced ValidationReport equals the worst status among the
four rule-check results and the LLM advisory result, under the ordering
failed > requires_review > warning > passed. -/
theorem overall_status_eq_worst (s : Settings) (r : PayRecord)
    (llm : Except String String) (now : Nat) :
    (PayValidationAgent.process s r llm now).validation_report.overall_status =
      worstStatus
        [(PayValidationAgent.validate_hours s r now).status,
         (PayValidationAgent.validate_pay_calculation r now).status,
         (PayValidationAgent.validate_pay_period r now).status,
         (PayValidationAgent.validate_data_completeness r now).status,
         (PayValidationAgent.validate_with_llm llm now).status] := by
  rw [PayValidationAgent.process_overall,
    PayValidationAgent.determine_overall_status_eq_worst]
  rfl

/-- C10: the overall status of the validation report is never
`requires_review`, for any record and any LLM outcome (including the
exception fallback): none of the five checks ever produces it. -/
theorem overall_never_requires_review (s : Settings) (r : PayRecord)
    (llm : Except String String) (now : Nat) :
    (PayValidationAgent.process s r llm now).validation_report.overall_status ≠
        .requires_review ∧
    ((PayValidationAgent.process s r llm now).validation_report.validation_results.all
      (fun v => v.status != ValidationStatus.requires_review)) = true := by
  constructor
  · rw [PayValidationAgent.process_overall]
    exact PayValidationAgent.determine_not_review _
      (PayValidationAgent.rule_results_not_review s r llm now)
  · rw [PayValidationAgent.process_results]
    apply List.all_eq_true.mpr
    intro v hv
    have := PayValidationAgent.rule_results_not_review s r llm now v hv
    simpa using this

/-- C8: with regular=80, overtime=5, rate=75.50 the expected gross is
80×75.50 + 5×75.50×1.5 = 6606.25; a record with gross 6606.25 and a
consistent net passes the pay-calculation check, and a record with gross
6415.00 fails it with difference 191.25, which exceeds the 0.01 tolerance. -/
theorem pay_calculation_example :
    80 * (75.50 : ℚ) + 5 * ((75.50 : ℚ) * (3 / 2)) = 6606.25 ∧
    PayValidationAgent.validate_pay_calculation recPass 0 =
      { check_name := "pay_calculation_check", status := .passed,
        message := .payCalcOk 6606.25 5323.25, timestamp := 0 } ∧
    PayValidationAgent.validate_pay_calculation recBadGross 0 =
      { check_name := "pay_calculation_check", status := .failed,
        message := .payCalcMismatch 6606.25 6415 191.25, timestamp := 0 } ∧
    qAbs ((6415 : ℚ) - 6606.25) = 191.25 ∧ (191.25 : ℚ) > 1 / 100 := by
  refine ⟨by norm_num, ?_, ?_, by norm_num [qAbs], by norm_num⟩ <;>
    norm_num [PayValidationAgent.validate_pay_calculation, qAbs,
      recPass, recBadGross, crewA]

/-- C3 counterexample: the pay-validation advisory fallback produces
`warning`, not `requires_review` as the claim states. -/
theorem llm_fallback_counterexample :
    (PayValidationAgent.validate_with_llm (.error "LLM service unavailable") 0).status =
        .warning ∧
    ¬(PayValidationAgent.validate_with_llm (.error "LLM service unavailable") 0).status =
        .requires_review := by
  constructor <;> simp [PayValidationAgent.validate_with_llm]

/-- C3 amended: an advisory exception is caught and converted into a
fallback verdict — `ValidationStatus.warning` for pay validation and
`ClaimStatus.under_review` for claims — with the error message preserved in
the result's message/rationale, and the node still completes normally with
the fallback as its advisory result (no retry, no escalation). -/
theorem llm_fallback_amended (e : String) (now : Nat) (s : Settings)
    (r : PayRecord) (cl : Claim) :
    PayValidationAgent.validate_with_llm (.error e) now =
      { check_name := "llm_semantic_check", status := .warning,
        message := .llmSkipped e, timestamp := now } ∧
    ClaimsProcessingAgent.evaluate_claim_with_llm cl (.error e) =
      { claim_id := cl.id, decision := .under_review, approved_amount := 0,
        rationale := .fallbackError e,
        next_steps := ["Manual review required", "Escalate to human reviewer"] } ∧
    (PayValidationAgent.process s r (.error e) now).validation_report.validation_results =
      PayValidationAgent.run_rule_checks s r now ++
        [PayValidationAgent.validate_with_llm (.error e) now] :=
  ⟨rfl, rfl, rfl⟩

/-- C4: the construction-time validator accepts `pay_period_end =
pay_period_start` (it only rejects `end < start`), although its own error
message — and the agent-level `pay_period_check`, shown in the last
conjunct — require `end > start`. -/
theorem pay_period_validator_boundary :
    validate_pay_period_end 0 0 = .ok 0 ∧
    validate_pay_period_end 0 (-1) = .error "Pay period end must be after start date" ∧
    validate_pay_period_end 0 1 = .ok 1 ∧
    (PayValidationAgent.validate_pay_period
      { recPass with pay_period_start := 0, pay_period_end := 0 } 0).status = .failed := by
  refine ⟨?_, ?_, ?_, ?_⟩ <;>
    norm_num [validate_pay_period_end, PayValidationAgent.validate_pay_period,
      iAbs, recPass, crewA]

/-- C9 counterexample: two runs of the rule checks on the same record are
not identical `ValidationResult`s — their `timestamp` fields record the
clock of each run. -/
theorem rule_checks_timestamp_counterexample :
    PayValidationAgent.run_rule_checks {} recPass 0 ≠
      PayValidationAgent.run_rule_checks {} recPass 1 := by
  intro h
  have h2 := congrArg (List.map (·.timestamp)) h
  rw [PayValidationAgent.run_rule_checks_timestamps,
    PayValidationAgent.run_rule_checks_timestamps] at h2
  simp at h2

/-- C9 amended: running the four rule checks twice on the same record yields
results identical in every field except the creation timestamp, which equals
each run's clock reading; no check reads any other mutable state. -/
theorem rule_checks_deterministic (s : Settings) (r : PayRecord) (t₁ t₂ : Nat) :
    (PayValidationAgent.run_rule_checks s r t₁).map stripTimestamp =
      (PayValidationAgent.run_rule_checks s r t₂).map stripTimestamp ∧
    (PayValidationAgent.run_rule_checks s r t₁).map (·.timestamp) = [t₁, t₁, t₁, t₁] := by
  constructor
  · simp only [PayValidationAgent.run_rule_checks, List.map_cons, List.map_nil]
    rw [PayValidationAgent.validate_hours_stripTimestamp s r t₁ t₂,
      PayValidationAgent.validate_pay_calculation_stripTimestamp r t₁ t₂,
      PayValidationAgent.validate_pay_period_stripTimestamp r t₁ t₂,
      PayValidationAgent.validate_data_completeness_stripTimestamp r t₁ t₂]
  · exact PayValidationAgent.run_rule_checks_timestamps s r t₁

/-- C6: a claim that passes the rule-based pre-checks and whose amount is at
most the configured auto-approve threshold is approved with the full amount,
and the output does not depend on the LLM outcome (the advisory step is
never consulted). -/
theorem auto_approve_below_threshold (s : Settings) (cl : Claim) (t : ℚ)
    (llm llm' : Except String String)
    (hval : (ClaimsProcessingAgent.validate_claim cl).1 = true)
    (hthr : s.auto_approve_claim_threshold = some t)
    (hle : cl.amount ≤ t) :
    (ClaimsProcessingAgent.process s cl llm).claim_decision.decision = .approved ∧
    (ClaimsProcessingAgent.process s cl llm).claim_decision.approved_amount = cl.amount ∧
    ClaimsProcessingAgent.process s cl llm = ClaimsProcessingAgent.process s cl llm' := by
  have hpos : 0 < cl.amount := validate_claim_amount_pos cl hval
  have ht0 : t ≠ 0 := (ne_of_gt (lt_of_lt_of_le hpos hle))
  have hd1 : decide (t ≠ 0) = true := decide_eq_true ht0
  have hd2 : decide (cl.amount ≤ t) = true := decide_eq_true hle
  simp [ClaimsProcessingAgent.process, hval, hthr, hd1, hd2,
    ClaimsProcessingAgent.auto_approve_claim]

/-- C6 witness: the concrete 500.00-amount claim with threshold 1000. -/
theorem auto_approve_below_threshold_witness :
    (ClaimsProcessingAgent.process settingsAuto1000 claimTimesheet
      (.ok "irrelevant")).claim_decision.decision = .approved ∧
    (ClaimsProcessingAgent.process settingsAuto1000 claimTimesheet
      (.ok "irrelevant")).claim_decision.approved_amount = claimTimesheet.amount ∧
    ClaimsProcessingAgent.process settingsAuto1000 claimTimesheet (.ok "irrelevant") =
      ClaimsProcessingAgent.process settingsAuto1000 claimTimesheet (.error "down") :=
  auto_approve_below_threshold settingsAuto1000 claimTimesheet 1000
    (.ok "irrelevant") (.error "down")
    (by norm_num +decide [ClaimsProcessingAgent.validate_claim,
      ClaimsProcessingAgent.validate_overtime_claim, claimTimesheet, crewA])
    rfl
    (by norm_num [claimTimesheet, crewA])

/-- C7 counterexample: an overtime claim with a supporting document that is
not timesheet-like passes the pre-check (and is then approved, not
rejected): the `or len(...) > 0` clause accepts any document. -/
theorem overtime_nontimesheet_doc_counterexample :
    claimReceiptOnly.claim_type = .overtime ∧
    ClaimsProcessingAgent.has_timesheet_like_doc claimReceiptOnly = false ∧
    (ClaimsProcessingAgent.validate_claim claimReceiptOnly).1 = true ∧
    (ClaimsProcessingAgent.process settingsAuto1000 claimReceiptOnly
      (.error "advisory down")).claim_decision.decision = .approved := by
  refine ⟨rfl, by decide, ?_, ?_⟩ <;>
    norm_num +decide [ClaimsProcessingAgent.process,
      ClaimsProcessingAgent.validate_claim, ClaimsProcessingAgent.validate_overtime_claim,
      ClaimsProcessingAgent.auto_approve_claim,
      settingsAuto1000, claimReceiptOnly, claimTimesheet, crewA]

/-- C7 amended: an overtime claim with an *empty* supporting-document list
(and passing the earlier description/amount pre-checks) is rejected before
any advisory call, with decision `rejected`, approved amount 0 and the
explicit missing-timesheet reason; an overtime claim with any document at
all passes this pre-check (see the counterexample). -/
theorem overtime_without_documents_rejected (s : Settings) (cl : Claim)
    (llm llm' : Except String String)
    (hty : cl.claim_type = .overtime)
    (hdocs : cl.supporting_documents = [])
    (hdesc : ¬strStripLen cl.description < 10)
    (hamt : ¬cl.amount ≤ 0) :
    (ClaimsProcessingAgent.process s cl llm).claim_decision.decision = .rejected ∧
    (ClaimsProcessingAgent.process s cl llm).claim_decision.approved_amount = 0 ∧
    (ClaimsProcessingAgent.process s cl llm).claim_decision.rationale =
      .precheckReject "Overtime claim validation failed - missing timesheet documentation" ∧
    ClaimsProcessingAgent.process s cl llm = ClaimsProcessingAgent.process s cl llm' := by
  have hv : ClaimsProcessingAgent.validate_claim cl =
      (false, "Overtime claim validation failed - missing timesheet documentation") := by
    unfold ClaimsProcessingAgent.validate_claim ClaimsProcessingAgent.validate_overtime_claim
    simp [hdesc, hamt, hty, hdocs, ClaimType.value]
  simp [ClaimsProcessingAgent.process, hv]

/-- C7 witness: the concrete overtime claim with no documents. -/
theorem overtime_without_documents_rejected_witness :
    (ClaimsProcessingAgent.process {} claimNoDocs (.ok "x")).claim_decision.decision =
        .rejected ∧
    (ClaimsProcessingAgent.process {} claimNoDocs (.ok "x")).claim_decision.approved_amount =
        0 ∧
    (ClaimsProcessingAgent.process {} claimNoDocs (.ok "x")).claim_decision.rationale =
      .precheckReject "Overtime claim validation failed - missing timesheet documentation" ∧
    ClaimsProcessingAgent.process {} claimNoDocs (.ok "x") =
      ClaimsProcessingAgent.process {} claimNoDocs (.error "y") :=
  overtime_without_documents_rejected {} claimNoDocs (.ok "x") (.error "y")
    rfl rfl (by decide) (by norm_num [claimNoDocs, claimTimesheet, crewA])

/-! ## Compliance-node lemmas (C5) -/

theorem compliance_process_checks (pr : Option PayRecord) (cl : Option Claim)
    (llm : Except String String) :
    (ComplianceAgent.process pr cl llm).checks = ComplianceAgent.gather_checks pr cl llm := by
  unfold ComplianceAgent.process
  dsimp only
  split_ifs <;> rfl

theorem compliance_process_should_continue (pr : Option PayRecord) (cl : Option Claim)
    (llm : Except String String) :
    (ComplianceAgent.process pr cl llm).should_continue =
      ((ComplianceAgent.gather_checks pr cl llm).all (·.passed) ||
        (ComplianceAgent.gather_checks pr cl llm).any (·.warning)) := by
  unfold ComplianceAgent.process
  dsimp only
  split_ifs with h1 h2 <;> simp_all [Bool.not_eq_true]

/-- C5 counterexample: on a pay record whose minimum-wage check fails hard,
a concurrent warning (here: no deductions, plus the LLM-error warning) makes
the compliance agent report `compliant_with_warnings` and continue, instead
of marking the run failed as the claim states. -/
theorem compliance_warning_masks_failure_counterexample :
    (⟨"minimum_wage_check", false, false⟩ : ComplianceCheck) ∈
      (ComplianceAgent.process (some recLowWage) none (.error "LLM timeout")).checks ∧
    (ComplianceAgent.process (some recLowWage) none (.error "LLM timeout")).should_continue =
        true ∧
    (ComplianceAgent.process (some recLowWage) none (.error "LLM timeout")).compliance_status =
      "compliant_with_warnings" := by
  refine ⟨?_, ?_, ?_⟩ <;>
    norm_num +decide [ComplianceAgent.process, ComplianceAgent.gather_checks,
      ComplianceAgent.check_pay_record_compliance,
      ComplianceAgent.check_general_compliance, recLowWage, crewA]

/-- C5 amended: the compliance node marks the run failed (should_continue
false, workflow status `failed`) exactly when some hard check fails *and no
check carries a warning*; a hard failure alongside any warning leaves the run
continuing as `compliant_with_warnings`.  The transition out of compliance
always goes to `notification`, never back to an earlier stage.  (The
`gross_pay ≠ 0` hypothesis keeps the statement on inputs where the embedded
tax-withholding division matches `Decimal` semantics.) -/
theorem compliance_hard_failure_amended (pr : Option PayRecord) (cl : Option Claim)
    (llm : Except String String) (st : WorkflowState)
    (_hgross : ∀ p, pr = some p → p.gross_pay ≠ 0) :
    ((ComplianceAgent.process pr cl llm).should_continue = false ↔
      ((∃ c ∈ (ComplianceAgent.process pr cl llm).checks,
          c.passed = false ∧ c.warning = false) ∧
       (∀ c ∈ (ComplianceAgent.process pr cl llm).checks, c.warning = false))) ∧
    ((ComplianceAgent.process pr cl llm).should_continue = false →
      (CrewPayWorkflow.run_compliance pr cl llm st).workflow_status = "failed") ∧
    CrewPayWorkflow.route_from_compliance st = "notification" := by
  refine ⟨?_, ?_, ?_⟩
  · rw [compliance_process_should_continue, compliance_process_checks]
    constructor
    · intro h
      rw [Bool.or_eq_false_iff] at h
      obtain ⟨hall, hwarn⟩ := h
      have hwarnAll : ∀ c ∈ ComplianceAgent.gather_checks pr cl llm, c.warning = false := by
        intro c hc
        by_contra hcw
        exact absurd (List.any_eq_true.mpr ⟨c, hc, by simpa using hcw⟩)
          (by simp [hwarn])
      refine ⟨?_, hwarnAll⟩
      have : ¬∀ c ∈ ComplianceAgent.gather_checks pr cl llm, c.passed = true := by
        intro hforall
        exact absurd (List.all_eq_true.mpr hforall) (by simp [hall])
      push_neg at this
      obtain ⟨c, hc, hcp⟩ := this
      exact ⟨c, hc, by simpa using hcp, hwarnAll c hc⟩
    · rintro ⟨⟨c, hc, hcp, -⟩, hwarnAll⟩
      rw [Bool.or_eq_false_iff]
      constructor
      · by_contra hall
        rw [Bool.not_eq_false] at hall
        have := List.all_eq_true.mp hall c hc
        simp [hcp] at this
      · by_contra hany
        rw [Bool.not_eq_false] at hany
        obtain ⟨d, hd, hdw⟩ := List.any_eq_true.mp hany
        have := hwarnAll d hd
        simp_all
  · intro hsc
    simp [CrewPayWorkflow.run_compliance, hsc]
  · simp [CrewPayWorkflow.route_from_compliance]

/-- C5 witness: the low-wage record (hard minimum-wage failure masked by
warnings: the run continues). -/
theorem compliance_hard_failure_amended_witness :
    ((ComplianceAgent.process (some recLowWage) none (.error "LLM timeout")).should_continue =
        false ↔
      ((∃ c ∈ (ComplianceAgent.process (some recLowWage) none
            (.error "LLM timeout")).checks, c.passed = false ∧ c.warning = false) ∧
       (∀ c ∈ (ComplianceAgent.process (some recLowWage) none
            (.error "LLM timeout")).checks, c.warning = false))) ∧
    ((ComplianceAgent.process (some recLowWage) none (.error "LLM timeout")).should_continue =
        false →
      (CrewPayWorkflow.run_compliance (some recLowWage) none (.error "LLM timeout")
        CrewPayWorkflow.initial_pay_state).workflow_status = "failed") ∧
    CrewPayWorkflow.route_from_compliance CrewPayWorkflow.initial_pay_state =
      "notification" :=
  compliance_hard_failure_amended (some recLowWage) none (.error "LLM timeout")
    CrewPayWorkflow.initial_pay_state
    (by intro p hp; injection hp with h2; subst h2; norm_num [recLowWage])

/-! ## Pay-validation routing (C1) -/

/-- C1 counterexample: on an all-passing record with compliance checks
enabled, the code routes `pay_validation → compliance`, while the claim's
rule (go to compliance only when the produced verdict requests review) says
`notification` — the produced verdict here is `passed`. -/
theorem pay_validation_route_counterexample :
    CrewPayWorkflow.route_from_pay_validation {}
      (CrewPayWorkflow.run_pay_validation {} recPass (.ok "All good") 0
        CrewPayWorkflow.initial_pay_state) = "compliance" ∧
    claimedRouteFromPayValidation {}
      (CrewPayWorkflow.run_pay_validation {} recPass (.ok "All good") 0
        CrewPayWorkflow.initial_pay_state) = "notification" ∧
    (CrewPayWorkflow.run_pay_validation {} recPass (.ok "All good") 0
        CrewPayWorkflow.initial_pay_state).validation_report.map (·.overall_status) =
      some .passed := by
  refine ⟨?_, ?_, ?_⟩ <;>
    norm_num +decide [CrewPayWorkflow.route_from_pay_validation,
      claimedRouteFromPayValidation,
      CrewPayWorkflow.run_pay_validation, CrewPayWorkflow.initial_pay_state,
      PayValidationAgent.process, PayValidationAgent.run_rule_checks,
      PayValidationAgent.validate_hours, PayValidationAgent.validate_pay_calculation,
      PayValidationAgent.validate_pay_period, PayValidationAgent.validate_data_completeness,
      PayValidationAgent.validate_with_llm, PayValidationAgent.determine_overall_status,
      qAbs, iAbs, recPass, crewA]

/-- C1 amended: out of `pay_validation` the run goes to `notification` when
the produced verdict is `failed` or compliance checks are disabled, and to
`compliance` otherwise (the agent proposes compliance whenever the verdict
is not `failed`, not only on a review request).  A run whose completeness
check fails has verdict `failed`, routes directly to `notification`, never
visits `compliance`, and ends with workflow status `failed`. -/
theorem pay_validation_route_amended (cfg : WorkflowConfig) (s : Settings)
    (r : PayRecord) (llmV llmC : Except String String) (now : Nat) :
    CrewPayWorkflow.route_from_pay_validation cfg
        (CrewPayWorkflow.run_pay_validation s r llmV now
          CrewPayWorkflow.initial_pay_state) =
      (if (PayValidationAgent.process s r llmV now).validation_report.overall_status =
            .failed ∨ ¬cfg.compliance_checks_required
       then "notification" else "compliance") ∧
    ((PayValidationAgent.validate_data_completeness r now).status = .failed →
      (CrewPayWorkflow.run_pay_workflow cfg s r llmV llmC now).1 =
        ["pay_validation", "notification"] ∧
      (CrewPayWorkflow.run_pay_workflow cfg s r llmV llmC now).2.workflow_status =
        "failed" ∧
      (PayValidationAgent.process s r llmV now).validation_report.overall_status =
        .failed) := by
  constructor
  · by_cases hov : (PayValidationAgent.process s r llmV now).validation_report.overall_status =
        .failed
    · have hsc : (PayValidationAgent.process s r llmV now).should_continue = false := by
        rw [← Bool.not_eq_true, PayValidationAgent.process_should_continue]
        simp [hov]
      simp [CrewPayWorkflow.run_pay_validation, CrewPayWorkflow.route_from_pay_validation,
        CrewPayWorkflow.initial_pay_state, hsc, hov]
    · have hsc : (PayValidationAgent.process s r llmV now).should_continue = true :=
        (PayValidationAgent.process_should_continue s r llmV now).mpr hov
      have hna : (PayValidationAgent.process s r llmV now).next_agent =
          some "ComplianceAgent" := by
        rw [PayValidationAgent.process_next_agent, if_pos hov]
      by_cases hc : cfg.compliance_checks_required <;>
        simp [CrewPayWorkflow.run_pay_validation, CrewPayWorkflow.route_from_pay_validation,
          CrewPayWorkflow.initial_pay_state, hsc, hna, hov, hc]
  · intro hcomp
    have hov : (PayValidationAgent.process s r llmV now).validation_report.overall_status =
        .failed := by
      rw [PayValidationAgent.process_overall]
      exact PayValidationAgent.determine_failed_of_mem _ _
        (by simp [PayValidationAgent.run_rule_checks]) hcomp
    have hsc : (PayValidationAgent.process s r llmV now).should_continue = false := by
      rw [← Bool.not_eq_true, PayValidationAgent.process_should_continue]
      simp [hov]
    refine ⟨?_, ?_, hov⟩ <;>
      simp [CrewPayWorkflow.run_pay_workflow, CrewPayWorkflow.run_pay_validation,
        CrewPayWorkflow.route_from_pay_validation, CrewPayWorkflow.run_notification,
        CrewPayWorkflow.initial_pay_state, hsc, hov]

/-- C1 witness: the record with `gross_pay = 0` fails the completeness check
and the workflow visits only `pay_validation` and `notification`, ending
`failed`. -/
theorem pay_validation_route_amended_witness :
    (CrewPayWorkflow.run_pay_workflow {} {} recIncomplete (.ok "x") (.ok "y") 0).1 =
      ["pay_validation", "notification"] ∧
    (CrewPayWorkflow.run_pay_workflow {} {} recIncomplete
      (.ok "x") (.ok "y") 0).2.workflow_status = "failed" ∧
    (PayValidationAgent.process {} recIncomplete (.ok "x") 0).validation_report.overall_status =
      .failed :=
  (pay_validation_route_amended {} {} recIncomplete (.ok "x") (.ok "y") 0).2
    (by norm_num +decide [PayValidationAgent.validate_data_completeness,
      recIncomplete, recPass, crewA])

end CrewPay
